import Mathlib

/-!
Verification development for the terraform-provider-ibm sources:
shallow embeddings of the PI-network resource handlers, the private-DNS
GLB-monitor and permitted-network handlers, the CIS firewall-rules and
MTLS handlers, and the HPCS data source, together with theorems about
the claims of the specification.
-/

/-- Modelled from the spec: the status-label constants of the power package
constants file are not part of the provided sources; they are modelled as
distinct string labels. -/
def State_Available : String := "available"

/-- Modelled from the spec: status label for a network still being built. -/
def State_Build : String := "build"

/-- Modelled from the spec: status label asking the poll loop to retry. -/
def State_Retry : String := "retry"

/-- Modelled from the spec: status label reported while the entity still exists. -/
def State_Found : String := "found"

/-- Modelled from the spec: status label reported once the entity is gone. -/
def State_NotFound : String := "not found"

/-- Modelled from the spec: the lowercase substring the power package matches
against delete errors to recognise a not-found response. -/
def NotFound : String := "not found"

/-- Network type constant of the power package. -/
def Vlan : String := "vlan"

/-- Network type constant of the power package. -/
def PubVlan : String := "pub-vlan"

/-- One entry of the pi_ip_address_range list (models.IPAddressRange with
both pointers dereferenced). -/
structure IPAddressRange where
  startingIPAddress : String
  endingIPAddress : String
deriving Repr, DecidableEq

/-- The update request body (models.NetworkUpdate): a field is absent from the
body when the string is empty (Advertise, ArpBroadcast), the list is empty
(DNSServers, IPAddressRanges) or the pointer is nil (Gateway, Name). -/
structure NetworkUpdate where
  advertise : String
  arpBroadcast : String
  dnsServers : List String
  gateway : Option String
  ipAddressRanges : List IPAddressRange
  name : Option String
deriving Repr, DecidableEq

/-- The remote network as returned by client.Get (models.Network, the fields
the embedded handlers read; vlanID models the *float64 VlanID pointer). -/
structure Network where
  advertise : String
  arpBroadcast : String
  dnsServers : List String
  gateway : String
  ipAddressRanges : List IPAddressRange
  name : String
  vlanID : Option Int
deriving Repr, DecidableEq

/-- Insertion step of the string sort (sort.Strings sorts ascending). -/
def insertSorted (x : String) : List String → List String
  | [] => [x]
  | y :: ys => if x ≤ y then x :: y :: ys else y :: insertSorted x ys

/-- Ascending string sort, modelling Go sort.Strings. -/
def sortStrings : List String → List String
  | [] => []
  | x :: xs => insertSorted x (sortStrings xs)

/-- The DNS-server block of isIBMPINetworkRefreshUpdateFunc: both lists are
sorted; a length mismatch forces a retry; the element loop of the source
ranges over network.DNSServers and compares each element with
network.DNSServers at the same index (the observed list against itself). -/
def dnsServersForceRetry (updateBody : NetworkUpdate) (network : Network) : Bool :=
  let updateSorted := sortStrings updateBody.dnsServers
  let networkSorted := sortStrings network.dnsServers
  if updateSorted.length ≠ networkSorted.length then true
  else (List.range networkSorted.length).any fun index =>
    networkSorted.getD index "" ≠ networkSorted.getD index ""

/-- The IP-address-range block of isIBMPINetworkRefreshUpdateFunc: a length
mismatch forces a retry; otherwise each range is combined into the string
start-end, both string lists are sorted and compared index by index. -/
def ipRangesForceRetry (updateBody : NetworkUpdate) (network : Network) : Bool :=
  if updateBody.ipAddressRanges.length ≠ network.ipAddressRanges.length then true
  else
    let n := updateBody.ipAddressRanges.length
    let dflt : IPAddressRange := { startingIPAddress := "", endingIPAddress := "" }
    let updateBodyIPAddressRanges := (List.range n).map fun index =>
      (updateBody.ipAddressRanges.getD index dflt).startingIPAddress ++ "-" ++
        (updateBody.ipAddressRanges.getD index dflt).endingIPAddress
    let networkIPAddressRanges := (List.range n).map fun index =>
      (network.ipAddressRanges.getD index dflt).startingIPAddress ++ "-" ++
        (network.ipAddressRanges.getD index dflt).endingIPAddress
    let u := sortStrings updateBodyIPAddressRanges
    let w := sortStrings networkIPAddressRanges
    (List.range n).any fun index => u.getD index "" ≠ w.getD index ""

/-- The gateway check of isIBMPINetworkRefreshUpdateFunc: a gateway present in
the update body forces a retry when it differs from the observed gateway. -/
def gatewayForceRetry (updateBody : NetworkUpdate) (network : Network) : Bool :=
  match updateBody.gateway with
  | some g => g != network.gateway
  | none => false

/-- The name check of isIBMPINetworkRefreshUpdateFunc: a name present in the
update body forces a retry when it differs from the observed name. -/
def nameForceRetry (updateBody : NetworkUpdate) (network : Network) : Bool :=
  match updateBody.name with
  | some nm => nm != network.name
  | none => false

/-- isIBMPINetworkRefreshUpdateFunc on a successful client.Get: the status
label returned by the update-convergence refresh, with the field checks in
source order (advertise, arp broadcast, DNS servers, gateway, IP address
ranges, name); any check that fires returns the retry status, otherwise the
available status. -/
def isIBMPINetworkRefreshUpdateFunc (updateBody : NetworkUpdate) (network : Network) : String :=
  if updateBody.advertise ≠ "" ∧ updateBody.advertise ≠ network.advertise then State_Retry
  else if updateBody.arpBroadcast ≠ "" ∧ updateBody.arpBroadcast ≠ network.arpBroadcast then
    State_Retry
  else if updateBody.dnsServers.length > 0 ∧ dnsServersForceRetry updateBody network then
    State_Retry
  else if gatewayForceRetry updateBody network then State_Retry
  else if updateBody.ipAddressRanges.length > 0 ∧ ipRangesForceRetry updateBody network then
    State_Retry
  else if nameForceRetry updateBody network then State_Retry
  else State_Available

/-- isIBMPINetworkRefreshDeleteFunc: the deletion-poll refresh. The input is
the outcome of client.Get; on any error the function returns the not-found
status with a nil error, otherwise the found status. The triple mirrors the
Go (interface, string, error) return. -/
def isIBMPINetworkRefreshDeleteFunc (getResult : Except String Network) :
    Option Network × String × Option String :=
  match getResult with
  | .error _ => (none, State_NotFound, none)
  | .ok network => (some network, State_Found, none)

/-- Splitting a character list at a separator character; the result always
has one more group than there are separators. -/
def splitCharList (sep : Char) : List Char → List (List Char)
  | [] => [[]]
  | c :: cs =>
    match splitCharList sep cs with
    | [] => if c = sep then [[], []] else [[c]]
    | g :: gs => if c = sep then [] :: g :: gs else (c :: g) :: gs

/-- Go strings.Split for a one-character separator. -/
def goSplit (s : String) (sep : Char) : List String :=
  (splitCharList sep s.toList).map String.mk

/-- Joining strings with a separator, modelling strings.Join. -/
def joinWith (sep : String) : List String → String
  | [] => ""
  | [x] => x
  | x :: xs => x ++ sep ++ joinWith sep xs

/-- The value of a decimal digit character. -/
def digitVal (c : Char) : Option Nat :=
  if '0' ≤ c ∧ c ≤ '9' then some (c.toNat - '0'.toNat) else none

/-- Accumulating decimal evaluation of a digit list. -/
def decimalValAux : List Char → Nat → Option Nat
  | [], acc => some acc
  | c :: cs, acc =>
    match digitVal c with
    | none => none
    | some d => decimalValAux cs (acc * 10 + d)

/-- The value of a non-empty all-digit string, as strconv.Atoi accepts it for
the unsigned inputs involved here. -/
def decimalVal (s : String) : Option Nat :=
  match s.toList with
  | [] => none
  | cs => decimalValAux cs 0

/-- Lowering one ASCII character, modelling strings.ToLower on the ASCII
error texts involved here. -/
def asciiToLowerChar (c : Char) : Char :=
  if 'A' ≤ c ∧ c ≤ 'Z' then Char.ofNat (c.toNat + 32) else c

/-- Lowering an ASCII string. -/
def asciiToLower (s : String) : String :=
  String.mk (s.toList.map asciiToLowerChar)

/-- Does the character list begin with the pattern? Helper for the
strings.Contains model. -/
def beginsWith : List Char → List Char → Bool
  | _, [] => true
  | [], _ :: _ => false
  | c :: cs, p :: ps => c = p && beginsWith cs ps

/-- Substring search over character lists. -/
def containsSub (pat : List Char) : List Char → Bool
  | [] => beginsWith [] pat
  | c :: cs => beginsWith (c :: cs) pat || containsSub pat cs

/-- Go strings.Contains: does s contain substr? -/
def stringsContains (s substr : String) : Bool :=
  containsSub substr.toList s.toList

/-- retryNetworkDeleteFunc's refresh body: the input is the error returned by
client.Delete (none on success). An error whose lowercased text does not
contain the not-found substring asks the loop to retry; otherwise (success or
a not-found error) the refresh reports the not-found target status. -/
def retryNetworkDeleteFunc (deleteErr : Option String) : String :=
  match deleteErr with
  | some e =>
      if stringsContains (asciiToLower e) NotFound = false then State_Retry
      else State_NotFound
  | none => State_NotFound

/-- A vendor SDK detailed response carrying the HTTP status code. -/
structure DetailedResponse where
  statusCode : Nat
deriving Repr, DecidableEq

/-- Outcome of a Delete handler: wrapped error or nil return. -/
inductive DeleteOutcome
  | failed (msg : String)
  | ok
deriving Repr, DecidableEq

/-- resourceIBMCISMtlsDelete, from the DeleteAccessCertificate call on: the
input is the call's error with its response (none on success). Any error is
wrapped and returned; there is no 404 check on this path. -/
def resourceIBMCISMtlsDelete
    (delResult : Option (String × Option DetailedResponse)) : DeleteOutcome :=
  match delResult with
  | some (e, _) =>
      .failed ("resourceIBMCISMtlsDelete CisMtlsSession initialization failed: " ++ e)
  | none => .ok

/-- resourceIBMPrivateDNSGLBMonitorDelete, from the DeleteMonitor call on: any
error is wrapped and returned; there is no 404 check on this path; on success
the identity is cleared and the handler returns nil. -/
def resourceIBMPrivateDNSGLBMonitorDelete
    (delResult : Option (String × Option DetailedResponse)) : DeleteOutcome :=
  match delResult with
  | some (e, _) =>
      .failed ("[ERROR] Error deleting dns services GLB Monitor:" ++ e)
  | none => .ok

/-- ResourceIBMCISFirewallrulesDelete, from the DeleteFirewallRulesWithContext
call on (the follow-up filter deletion is not modelled): an error whose
response carries status code 404 is swallowed and the handler returns nil,
any other error is wrapped and returned. -/
def ResourceIBMCISFirewallrulesDelete
    (delResult : Option (String × Option DetailedResponse)) : DeleteOutcome :=
  match delResult with
  | some (e, response) =>
      match response with
      | some r =>
          if r.statusCode = 404 then .ok
          else .failed ("ResourceIBMCISFirewallrulesDelete DeleteFirewallRulesWithContext failed: " ++ e)
      | none => .failed ("ResourceIBMCISFirewallrulesDelete DeleteFirewallRulesWithContext failed: " ++ e)
  | none => .ok

/-- Outcome of decomposing a composite identity string: an explicit parse
error, the parsed segments, or a Go runtime panic raised by an out-of-range
slice index. -/
inductive IdParseOutcome (α : Type)
  | parsed (a : α)
  | parseError (msg : String)
  | panicked (msg : String)
deriving Repr, DecidableEq

/-- The identity decomposition of resourceIBMPrivateDNSGLBMonitorRead (the
same shape is used by its Update and Delete): idset = strings.Split(id, "/"),
then idset[0] and idset[1] are indexed with no length check, so an identity
with fewer than two segments raises a runtime panic. -/
def glbMonitorReadIdSegments (id : String) : IdParseOutcome (String × String) :=
  let idset := goSplit id '/'
  match idset[0]?, idset[1]? with
  | some a, some b => .parsed (a, b)
  | _, _ => .panicked "runtime error: index out of range"

/-- The identity decomposition of resourceIBMPrivateDNSGLBMonitorExists: the
segment count is checked before indexing and a malformed identity yields an
explicit error. -/
def glbMonitorExistsIdSegments (id : String) : IdParseOutcome (String × String) :=
  let idset := goSplit id '/'
  if h : idset.length < 2 then
    .parseError ("[ERROR] Incorrect ID " ++ id ++
      ": Id should be a combination of InstanceID/monitorID")
  else
    .parsed (idset.get ⟨0, by omega⟩, idset.get ⟨1, by omega⟩)

/-- The identity decomposition of resourceIBMPrivateDNSPermittedNetworkExists:
three segments are required and checked before indexing. -/
def permittedNetworkExistsIdSegments (id : String) :
    IdParseOutcome (String × String × String) :=
  let idSet := goSplit id '/'
  if h : idSet.length < 3 then
    .parseError ("[ERROR] Incorrect ID " ++ id ++
      ": Id should be a combination of InstanceID/zoneID/permittedNetworkID")
  else
    .parsed (idSet.get ⟨0, by omega⟩, idSet.get ⟨1, by omega⟩, idSet.get ⟨2, by omega⟩)

/-- Outcome of a Read handler: identity cleared with a nil return (remote
entity gone), a wrapped error, or state populated from the response. -/
inductive ReadOutcome (σ : Type)
  | clearedId
  | failed (msg : String)
  | populated (s : σ)
deriving Repr, DecidableEq

/-- The fields of a firewall rule as returned by GetFirewallRuleWithContext. -/
structure FirewallRule where
  filterID : String
  action : String
  paused : Bool
  description : String
deriving Repr, DecidableEq

/-- The state fields ResourceIBMCISFirewallrulesRead writes back. -/
structure FirewallRuleState where
  cisID : String
  domainID : String
  filterID : String
  action : String
  paused : Bool
  description : String
deriving Repr, DecidableEq

/-- ResourceIBMCISFirewallrulesRead, from the GetFirewallRuleWithContext call
on: a 404 response clears the identity and returns nil, any other error is
wrapped; on success every read field is written from the response. -/
def ResourceIBMCISFirewallrulesRead (crn zoneID : String)
    (getResult : Except (String × Option DetailedResponse) FirewallRule) :
    ReadOutcome FirewallRuleState :=
  match getResult with
  | .error (e, response) =>
      match response with
      | some r =>
          if r.statusCode = 404 then .clearedId
          else .failed ("ResourceIBMCISFirewallrulesRead GetFirewallRuleWithContext failed: " ++ e)
      | none => .failed ("ResourceIBMCISFirewallrulesRead GetFirewallRuleWithContext failed: " ++ e)
  | .ok result =>
      .populated
        { cisID := crn, domainID := zoneID, filterID := result.filterID,
          action := result.action, paused := result.paused,
          description := result.description }

/-- The fields of an access certificate as returned by GetAccessCertificate. -/
structure AccessCertificate where
  id : String
  createdAt : String
  updatedAt : String
  expiresOn : String
deriving Repr, DecidableEq

/-- The state fields resourceIBMCISMtlsRead writes back. -/
structure MtlsState where
  cisID : String
  domainID : String
  mtlsID : String
  certCreatedAt : String
  certUpdatedAt : String
  certExpireOn : String
  certID : String
deriving Repr, DecidableEq

/-- resourceIBMCISMtlsRead, from the GetAccessCertificate call on: a 404
response clears the identity and returns nil, any other error is wrapped; on
success the state is written from the response. -/
def resourceIBMCISMtlsRead (crn zoneID : String)
    (getResult : Except (String × Option DetailedResponse) AccessCertificate) :
    ReadOutcome MtlsState :=
  match getResult with
  | .error (e, response) =>
      match response with
      | some r =>
          if r.statusCode = 404 then .clearedId
          else .failed ("resourceIBMCISMtlsRead GetAccessCertificate failed: " ++ e)
      | none => .failed ("resourceIBMCISMtlsRead GetAccessCertificate failed: " ++ e)
  | .ok result =>
      .populated
        { cisID := crn, domainID := zoneID, mtlsID := result.id,
          certCreatedAt := result.createdAt, certUpdatedAt := result.updatedAt,
          certExpireOn := result.expiresOn, certID := result.id }

/-- The fields of a GLB monitor this model tracks from GetMonitor. -/
structure GlbMonitor where
  id : String
  name : String
  monitorType : String
  port : Int
deriving Repr, DecidableEq

/-- The core state fields resourceIBMPrivateDNSGLBMonitorRead writes back
(the optional fields that are set only when non-nil are not modelled). -/
structure GlbMonitorState where
  instanceID : String
  monitorID : String
  name : String
  monitorType : String
  port : Int
deriving Repr, DecidableEq

/-- resourceIBMPrivateDNSGLBMonitorRead, from the GetMonitor call on: every
error is wrapped and returned - this Read has no 404 branch, so a not-found
response is surfaced as an error instead of clearing the identity. -/
def resourceIBMPrivateDNSGLBMonitorRead (instanceID : String)
    (getResult : Except (String × Option DetailedResponse) GlbMonitor) :
    ReadOutcome GlbMonitorState :=
  match getResult with
  | .error (e, _) =>
      .failed ("[ERROR] Error fetching dns services GLB Monitor:" ++ e)
  | .ok response =>
      .populated
        { instanceID := instanceID, monitorID := response.id,
          name := response.name, monitorType := response.monitorType,
          port := response.port }

/-- One vendor API invocation, tagged by endpoint. -/
inductive ApiCall
  | networkUpdate
  | networkGet
  | workspaceGet
  | tagsUpdate
  | monitorUpdate
  | monitorGet
  | firewallRulesUpdate
  | firewallRuleGet
deriving Repr, DecidableEq

/-- The HasChange flags resourceIBMPINetworkUpdate consults. -/
structure PINetworkChanges where
  advertise : Bool
  arpBroadcast : Bool
  dns : Bool
  gateway : Bool
  ipAddressRange : Bool
  networkName : Bool
  userTags : Bool
deriving Repr, DecidableEq

/-- The vendor calls issued by resourceIBMPINetworkRead: the unconditional
network get, and on a non-on-prem session the workspace get (the further
read-only polling and tag queries that can follow are not modelled). -/
def resourceIBMPINetworkRead_apiCalls (onPrem : Bool) : List ApiCall :=
  [ApiCall.networkGet] ++ (if onPrem then [] else [ApiCall.workspaceGet])

/-- The vendor calls issued by resourceIBMPINetworkUpdate, by source order:
when any of the six network HasChange flags is set, the network update call
followed by the convergence polling gets (modelled as one get); when the user
tags changed and a CRN is in state, the tags update; finally the delegated
Read. The vlan-only restriction on gateway and range updates is surfaced as
an error before the update call. -/
def resourceIBMPINetworkUpdate_apiCalls (ch : PINetworkChanges)
    (networkType : String) (crnSet : Bool) (onPrem : Bool) :
    Except String (List ApiCall) :=
  let anyNet := ch.advertise || ch.arpBroadcast || ch.dns || ch.gateway ||
    ch.ipAddressRange || ch.networkName
  if anyNet then
    if (ch.ipAddressRange || ch.gateway) && networkType != Vlan then
      .error (networkType ++ " type does not allow ip-address range or gateway update")
    else
      .ok ([ApiCall.networkUpdate, ApiCall.networkGet] ++
        (if ch.userTags && crnSet then [ApiCall.tagsUpdate] else []) ++
        resourceIBMPINetworkRead_apiCalls onPrem)
  else
    .ok ((if ch.userTags && crnSet then [ApiCall.tagsUpdate] else []) ++
      resourceIBMPINetworkRead_apiCalls onPrem)

/-- The HasChange flags resourceIBMPrivateDNSGLBMonitorUpdate consults. -/
structure GlbMonitorChanges where
  name : Bool
  description : Bool
  interval : Bool
  retries : Bool
  timeout : Bool
  expectedBody : Bool
  monitorType : Bool
  port : Bool
  path : Bool
  allowInsecure : Bool
  expectedCodes : Bool
  headers : Bool
deriving Repr, DecidableEq

/-- The vendor calls issued by resourceIBMPrivateDNSGLBMonitorUpdate: the
monitor update call only when some HasChange flag is set, then always the
delegated Read's GetMonitor call. -/
def resourceIBMPrivateDNSGLBMonitorUpdate_apiCalls (ch : GlbMonitorChanges) :
    List ApiCall :=
  (if ch.name || ch.description || ch.interval || ch.retries || ch.timeout ||
      ch.expectedBody || ch.monitorType || ch.port || ch.path ||
      ch.allowInsecure || ch.expectedCodes || ch.headers
   then [ApiCall.monitorUpdate] else []) ++ [ApiCall.monitorGet]

/-- The HasChange flags ResourceIBMCISFirewallrulesUpdate consults. -/
structure FirewallRulesChanges where
  filterID : Bool
  action : Bool
  paused : Bool
  description : Bool
  priority : Bool
deriving Repr, DecidableEq

/-- The vendor calls issued by ResourceIBMCISFirewallrulesUpdate: the update
call only when some HasChange flag is set, then always the delegated Read's
GetFirewallRule call. -/
def ResourceIBMCISFirewallrulesUpdate_apiCalls (ch : FirewallRulesChanges) :
    List ApiCall :=
  (if ch.filterID || ch.action || ch.paused || ch.description || ch.priority
   then [ApiCall.firewallRulesUpdate] else []) ++ [ApiCall.firewallRuleGet]

/-- Result of the Poll-Converge Loop. -/
inductive PollResult (σ : Type)
  | reached (s : σ)
  | timedOut
  | unexpectedState (st : String)
  | refreshFailed (e : String)
deriving Repr, DecidableEq

/-- Modelled from the spec: the Poll-Converge Loop (the externally supplied
retry.StateChangeConf.WaitForStateContext wait primitive, which is not part
of the provided sources). Time is discrete: fuel is the number of refresh
invocations that fit into the bounding timeout, i numbers the invocations.
The loop returns the last snapshot once the refresh reports a target status,
recurses while it reports a pending status, fails with the unexpected-state
error on a status in neither set, propagates a refresh error immediately, and
fails with the timeout error when the fuel is exhausted while still pending. -/
def pollConverge {σ : Type} (pending target : List String)
    (refresh : Nat → Except String (σ × String)) : Nat → Nat → PollResult σ
  | 0, _ => .timedOut
  | fuel + 1, i =>
    match refresh i with
    | .error e => .refreshFailed e
    | .ok (s, st) =>
      if st ∈ target then .reached s
      else if st ∈ pending then pollConverge pending target refresh fuel (i + 1)
      else .unexpectedState st

/-- isIBMPINetworkRefreshFunc: the creation-poll refresh, driven by the i-th
outcome of client.Get; a get error is propagated, a network with a VLAN ID is
available, otherwise it is still building. -/
def isIBMPINetworkRefreshFunc (getSeq : Nat → Except String Network) (i : Nat) :
    Except String (Network × String) :=
  match getSeq i with
  | .error e => .error e
  | .ok network =>
      if network.vlanID.isSome then .ok (network, State_Available)
      else .ok (network, State_Build)

/-- isWaitForIBMPINetworkAvailable: the Poll-Converge Loop instantiated with
pending set retry and build, target set available, and the creation refresh. -/
def isWaitForIBMPINetworkAvailable (getSeq : Nat → Except String Network)
    (fuel : Nat) : PollResult Network :=
  pollConverge [State_Retry, State_Build] [State_Available]
    (isIBMPINetworkRefreshFunc getSeq) fuel 0

/-- isWaitForIBMPINetworkDeleted: the Poll-Converge Loop instantiated with
pending set found, target set not-found, and the deletion refresh (which
itself never returns an error). -/
def isWaitForIBMPINetworkDeleted (getSeq : Nat → Except String Network)
    (fuel : Nat) : PollResult (Option Network) :=
  pollConverge [State_Found] [State_NotFound]
    (fun i =>
      let r := isIBMPINetworkRefreshDeleteFunc (getSeq i)
      .ok (r.1, r.2.1))
    fuel 0

/-- An event of a mutual-exclusion trace: named-lock acquisition or release,
or a vendor API invocation. -/
inductive LockEvent
  | lock (key : String)
  | unlock (key : String)
  | apiCall (name : String)
deriving Repr, DecidableEq

/-- The named-lock key of the permitted-network resource: the fixed text
joined with the two parent identifiers. -/
def permittedNetworkLockKey (instanceID zoneID : String) : String :=
  "private_dns_permitted_network_" ++ instanceID ++ zoneID

/-- The event trace of resourceIBMPrivateDNSPermittedNetworkCreate: lock,
then (unless building the VPC options struct fails, which involves no API
call) the create call, then (unless the create call fails) the
GetPermittedNetwork call of the delegated Read, and the deferred unlock on
every exit path. The deferred unlock runs at function exit, after the
delegated Read. -/
def permittedNetworkCreateEvents (instanceID zoneID : String)
    (vpcOptFails createFails : Bool) : List LockEvent :=
  let mk := permittedNetworkLockKey instanceID zoneID
  [LockEvent.lock mk] ++
    (if vpcOptFails then []
     else [LockEvent.apiCall "CreatePermittedNetwork"] ++
       (if createFails then [] else [LockEvent.apiCall "GetPermittedNetwork"])) ++
    [LockEvent.unlock mk]

/-- The event trace of resourceIBMPrivateDNSPermittedNetworkDelete: lock, the
delete call, the deferred unlock on every exit path. -/
def permittedNetworkDeleteEvents (instanceID zoneID : String) : List LockEvent :=
  let mk := permittedNetworkLockKey instanceID zoneID
  [LockEvent.lock mk, LockEvent.apiCall "DeletePermittedNetwork", LockEvent.unlock mk]

/-- The event trace of resourceIBMPrivateDNSPermittedNetworkExists: lock, the
existence-check get, the deferred unlock on every exit path. -/
def permittedNetworkExistsEvents (instanceID zoneID : String) : List LockEvent :=
  let mk := permittedNetworkLockKey instanceID zoneID
  [LockEvent.lock mk, LockEvent.apiCall "GetPermittedNetwork", LockEvent.unlock mk]

/-- Number of API invocations in a trace. -/
def apiCount (events : List LockEvent) : Nat :=
  events.countP fun e => match e with | LockEvent.apiCall _ => true | _ => false

/-- A trace is well scoped for a key when it opens by acquiring that lock,
closes by releasing it, and everything in between is an API invocation. -/
def wellScoped (key : String) (events : List LockEvent) : Prop :=
  events.head? = some (LockEvent.lock key) ∧
  events.getLast? = some (LockEvent.unlock key) ∧
  ((events.drop 1).dropLast.all
    fun e => match e with | LockEvent.apiCall _ => true | _ => false) = true

/-- A resource instance as this model reads it: the provider-assigned id, the
location flex.GetLocationV2 reports, and the name. -/
structure ResourceInstance where
  id : String
  location : String
  name : String
deriving Repr, DecidableEq

/-- One page of the ListResourceInstances response: the resources and the
optional next URL. -/
structure InstancesPage where
  resources : List ResourceInstance
  nextURL : Option String
deriving Repr, DecidableEq

/-- Modelled from the spec: the raw query of a URL as net/url parses it for
simple unescaped URLs - the part after the first question mark. -/
def rawQueryOf (u : String) : String :=
  match goSplit u '?' with
  | [] => ""
  | [_] => ""
  | _ :: rest => joinWith "?" rest

/-- Modelled from the spec: url.Values.Get for simple unescaped queries - the
value of the first pair whose key matches, or the empty string. -/
def queryGet (raw key : String) : String :=
  let values := (goSplit raw '&').filterMap fun p =>
    match goSplit p '=' with
    | [] => none
    | k :: vs => if k = key then some (joinWith "=" vs) else none
  match values with
  | v :: _ => v
  | [] => ""

/-- getInstancesNext: a nil next URL ends the pagination with an empty token;
otherwise the next_url query parameter of the URL is the next token (URL
parsing is modelled as total, which it is for the simple URLs involved). -/
def getInstancesNext (next : Option String) : Except String String :=
  match next with
  | none => .ok ""
  | some u => .ok (queryGet (rawQueryOf u) "next_url")

/-- The pagination loop of dataSourceIBMHPCSRead: starting from the empty
token, list one page (the token is passed as the Start option when it is
non-empty), extract the next token with getInstancesNext, append the page's
resources, and stop once the token is empty. fuel bounds the number of
iterations of this model; the Go loop has no such bound. -/
def hpcsFetchInstances (listAPI : String → Except String InstancesPage) :
    Nat → String → List ResourceInstance → Except String (List ResourceInstance)
  | 0, _, _ => .error "model: page budget exhausted"
  | fuel + 1, start, acc =>
    match listAPI start with
    | .error e => .error ("[ERROR] Error retrieving resource instance: " ++ e)
    | .ok page =>
      match getInstancesNext page.nextURL with
      | .error e => .error e
      | .ok nu =>
        if nu = "" then .ok (acc ++ page.resources)
        else hpcsFetchInstances listAPI fuel nu (acc ++ page.resources)

/-- The location filter of dataSourceIBMHPCSRead: when a location is
configured only the instances at that location are kept, otherwise all. -/
def hpcsFilterByLocation (instances : List ResourceInstance)
    (location : Option String) : List ResourceInstance :=
  match location with
  | some loc => instances.filter fun inst => inst.location = loc
  | none => instances

/-- Outcome of the HPCS data-source read up to instance selection. -/
inductive HPCSReadOutcome
  | failed (msg : String)
  | selected (inst : ResourceInstance)
deriving Repr, DecidableEq

/-- The selection step of dataSourceIBMHPCSRead: an empty filtered list is an
error, more than one match is an error, and exactly one match selects that
instance (filteredInstances[0]) for the state write-back. -/
def dataSourceIBMHPCSRead_select (filteredInstances : List ResourceInstance)
    (name : String) : HPCSReadOutcome :=
  if filteredInstances.length = 0 then
    .failed ("[ERROR] No resource instance found with name [" ++ name ++ "]")
  else if filteredInstances.length > 1 then
    .failed ("[ERROR] More than one resource instance found with name matching [" ++ name ++ "]")
  else
    match filteredInstances with
    | inst :: _ => .selected inst
    | [] => .failed "unreachable: the empty case is handled above"

/-- dataSourceIBMHPCSRead from the pagination loop to the instance selection:
aggregate all pages, filter by location, then select. -/
def dataSourceIBMHPCSRead (listAPI : String → Except String InstancesPage)
    (fuel : Nat) (name : String) (location : Option String) : HPCSReadOutcome :=
  match hpcsFetchInstances listAPI fuel "" [] with
  | .error e => .failed e
  | .ok instances => dataSourceIBMHPCSRead_select (hpcsFilterByLocation instances location) name

/-- One dotted-quad octet as net.ParseCIDR accepts it: up to three decimal
digits, no leading zero, value at most 255. -/
def parseOctet (s : String) : Option Nat :=
  match decimalVal s with
  | none => none
  | some n =>
      if s.length = 0 ∨ s.length > 3 then none
      else if s.length > 1 ∧ s.toList.headD '0' = '0' then none
      else if n > 255 then none
      else some n

/-- An IPv4 address as a 32-bit value. -/
def parseIPv4 (s : String) : Option Nat :=
  match (goSplit s '.').map parseOctet with
  | [some a, some b, some c, some d] => some (((a * 256 + b) * 256 + c) * 256 + d)
  | _ => none

/-- The mask length of a CIDR string: decimal, no leading zero, at most 32. -/
def parseMaskLen (s : String) : Option Nat :=
  match decimalVal s with
  | none => none
  | some n =>
      if n ≤ 32 ∧ (s.length = 1 ∨ s.toList.headD '0' ≠ '0') then some n else none

/-- net.ParseCIDR for IPv4: address slash mask length; the returned base is
the address with the host bits masked off, paired with the mask length. -/
def netParseCIDR (s : String) : Option (Nat × Nat) :=
  match goSplit s '/' with
  | [ipStr, lenStr] =>
      match parseIPv4 ipStr, parseMaskLen lenStr with
      | some ip, some n =>
          let hostLen := 32 - n
          some (ip / 2 ^ hostLen * 2 ^ hostLen, n)
      | _, _ => none
  | _ => none

/-- Dotted-quad rendering of a 32-bit IPv4 value. -/
def ipToString (ip : Nat) : String :=
  toString (ip / 2 ^ 24 % 256) ++ "." ++ toString (ip / 2 ^ 16 % 256) ++ "." ++
    toString (ip / 2 ^ 8 % 256) ++ "." ++ toString (ip % 256)

/-- cidr.Host of the go-cidr library on a masked IPv4 base: host number num
within the subnet whose host part is hostLen bits wide. A negative num counts
back from the end of the subnet (num = -1 is the last address); a host number
beyond the subnet is an error. -/
def cidrHost (base hostLen : Nat) (num : Int) : Option Nat :=
  let maxHostNum : Int := 2 ^ hostLen - 1
  if 0 ≤ num then
    if maxHostNum < num then none else some (base + num.toNat)
  else
    if maxHostNum < -num - 1 then none
    else some (base + (maxHostNum - (-num - 1)).toNat)

/-- The subnetToSize map literal of generateIPData. Its keys are the strings
21 through 31 while it is looked up with the decimal address count of the
subnet; Go map lookup yields the zero value 0 on a missing key. -/
def subnetToSize (key : String) : Nat :=
  if key = "21" then 2048
  else if key = "22" then 1024
  else if key = "23" then 512
  else if key = "24" then 256
  else if key = "25" then 128
  else if key = "26" then 64
  else if key = "27" then 32
  else if key = "28" then 16
  else if key = "29" then 8
  else if key = "30" then 4
  else if key = "31" then 2
  else 0

/-- generateIPData: parse the CIDR, take host 1 as the gateway, host 4 as the
first usable address, and host (subnetToSize[addressCount] - 2) as the last
usable address, rendering all three as dotted quads. cidr.AddressCount is
2 to the power of the host length. -/
def generateIPData (cdir : String) : Option (String × String × String) :=
  match netParseCIDR cdir with
  | none => none
  | some (base, n) =>
    let hostLen := 32 - n
    match cidrHost base hostLen 1 with
    | none => none
    | some gateway =>
      let ad := 2 ^ hostLen
      let convertedad := toString ad
      match cidrHost base hostLen 4 with
      | none => none
      | some firstusable =>
        match cidrHost base hostLen ((subnetToSize convertedad : Int) - 2) with
        | none => none
        | some lastusable =>
          some (ipToString gateway, ipToString firstusable, ipToString lastusable)

/-- The network create request body (models.NetworkCreate, the fields the
embedded validation phase sets). -/
structure NetworkCreateBody where
  networkType : String
  name : String
  dnsServers : List String
  cidr : String
  gateway : String
  ipAddressRanges : List IPAddressRange
deriving Repr, DecidableEq

/-- The configuration record of the PI network resource as the Create handler
reads it; an optional field is none when GetOk reports it unset. -/
structure PINetworkConfig where
  cloudInstanceID : String
  networkName : String
  networkType : String
  cidr : Option String
  gateway : Option String
  ipAddressRange : Option (List IPAddressRange)
  dns : Option (List String)
deriving Repr, DecidableEq

/-- The validation phase of resourceIBMPINetworkCreate: a validationError is
returned to the caller before any vendor API call; callAPI records the
request body with which the handler proceeds to the vendor calls. -/
inductive CreatePhase1
  | validationError (msg : String)
  | callAPI (body : NetworkCreateBody)
deriving Repr, DecidableEq

/-- resourceIBMPINetworkCreate up to the first vendor API call: the request
body is built from the configuration; for the vlan type a missing CIDR is a
validation error, otherwise generateIPData derives gateway and usable range
from the CIDR, with configured gateway and ip-address ranges taking
precedence; a CIDR configured together with the pub-vlan type is a
validation error. All of this happens before any vendor API call. -/
def resourceIBMPINetworkCreate_phase1 (d : PINetworkConfig) : CreatePhase1 :=
  let body0 : NetworkCreateBody :=
    { networkType := d.networkType, name := d.networkName,
      dnsServers := match d.dns with | some l => l | none => [],
      cidr := "", gateway := "", ipAddressRanges := [] }
  let vlanStep : CreatePhase1 :=
    if d.networkType = Vlan then
      match d.cidr with
      | none => .validationError "pi_cidr is required when pi_network_type is vlan"
      | some networkcidr =>
        match generateIPData networkcidr with
        | none => .validationError "invalid CIDR"
        | some (gateway, firstip, lastip) =>
          let ipBodyRanges : List IPAddressRange :=
            [{ startingIPAddress := firstip, endingIPAddress := lastip }]
          let gateway := match d.gateway with | some g => g | none => gateway
          let ipBodyRanges := match d.ipAddressRange with
            | some ips => ips
            | none => ipBodyRanges
          .callAPI { body0 with
            ipAddressRanges := ipBodyRanges, gateway := gateway, cidr := networkcidr }
    else .callAPI body0
  match vlanStep with
  | .validationError msg => .validationError msg
  | .callAPI body =>
    if d.cidr.isSome ∧ d.networkType = PubVlan then
      .validationError "pi_cidr cannot be set when pi_network_type is pub-vlan"
    else .callAPI body

/-- A network still being built: no VLAN ID assigned yet. -/
def buildingNetwork : Network :=
  { advertise := "enable", arpBroadcast := "disable", dnsServers := [],
    gateway := "", ipAddressRanges := [], name := "net", vlanID := none }

/-- A provisioned network: VLAN ID assigned. -/
def availableNetwork : Network :=
  { advertise := "enable", arpBroadcast := "disable", dnsServers := [],
    gateway := "", ipAddressRanges := [], name := "net", vlanID := some 300 }

/-- All-false HasChange flags for the PI network update. -/
def noChangesPI : PINetworkChanges :=
  { advertise := false, arpBroadcast := false, dns := false, gateway := false,
    ipAddressRange := false, networkName := false, userTags := false }

/-- All-false HasChange flags for the GLB monitor update. -/
def noChangesGlb : GlbMonitorChanges :=
  { name := false, description := false, interval := false, retries := false,
    timeout := false, expectedBody := false, monitorType := false, port := false,
    path := false, allowInsecure := false, expectedCodes := false, headers := false }

/-- All-false HasChange flags for the firewall rules update. -/
def noChangesFw : FirewallRulesChanges :=
  { filterID := false, action := false, paused := false, description := false,
    priority := false }

/-- A one-instance HPCS listing used to exercise the data-source read. -/
def hpcsSampleInstance : ResourceInstance :=
  { id := "crn-hpcs-1", location := "us-south", name := "hpcs" }

/-- A single-page listing API answering the initial empty token. -/
def hpcsSampleAPI (start : String) : Except String InstancesPage :=
  if start = "" then .ok { resources := [hpcsSampleInstance], nextURL := none }
  else .error "unknown token"

/-- Host 1 of a subnet with at least one host bit is the base plus one. -/
lemma cidrHost_one (base h : Nat) (hh : 1 ≤ h) : cidrHost base h 1 = some (base + 1) := by
  have hp : (2 : Int) ≤ 2 ^ h := by
    calc (2 : Int) = 2 ^ 1 := (pow_one 2).symm
    _ ≤ 2 ^ h := pow_le_pow_right₀ (by norm_num) hh
  simp only [cidrHost]
  generalize (2 : Int) ^ h = P at hp ⊢
  rw [if_pos (by norm_num), if_neg (by omega)]
  rfl

/-- Host 4 of a subnet with at least three host bits is the base plus four. -/
lemma cidrHost_four (base h : Nat) (hh : 3 ≤ h) : cidrHost base h 4 = some (base + 4) := by
  have hp : (8 : Int) ≤ 2 ^ h := by
    calc (8 : Int) = 2 ^ 3 := by norm_num
    _ ≤ 2 ^ h := pow_le_pow_right₀ (by norm_num) hh
  simp only [cidrHost]
  generalize (2 : Int) ^ h = P at hp ⊢
  rw [if_pos (by norm_num), if_neg (by omega)]
  rfl

/-- Host -2 of a subnet with at least one host bit is the base plus the
subnet size minus two. -/
lemma cidrHost_neg_two (base h : Nat) (hh : 1 ≤ h) :
    cidrHost base h (-2) = some (base + (2 ^ h - 2)) := by
  have hp : (2 : Int) ≤ 2 ^ h := by
    calc (2 : Int) = 2 ^ 1 := (pow_one 2).symm
    _ ≤ 2 ^ h := pow_le_pow_right₀ (by norm_num) hh
  have hc : ((2 ^ h : Nat) : Int) = 2 ^ h := by push_cast; ring
  simp only [cidrHost]
  generalize (2 : Int) ^ h = P at hp hc ⊢
  generalize (2 : Nat) ^ h = Q at hc ⊢
  rw [if_neg (by norm_num), if_neg (by omega)]
  simp only [Option.some.injEq]
  omega

/-- The decimal rendering of a subnet size (a power of two with between 3 and
32 host bits) never matches a key of the subnetToSize map, so the map lookup
yields the Go zero value. -/
lemma subnetToSize_pow (h : Nat) (h3 : 3 ≤ h) (h32 : h ≤ 32) :
    subnetToSize (toString (2 ^ h)) = 0 := by
  interval_cases h <;> rfl

/-- C1: the update-convergence refresh isIBMPINetworkRefreshUpdateFunc is
claimed to report the available state only when every field present in the
update body equals the observed field, DNS servers compared
order-insensitively, and retry whenever a requested value differs. The code
violates this: its DNS loop compares the observed list against itself, so a
same-length DNS mismatch is reported as available. At the failing input the
requested DNS server list is ["9.9.9.9"], the observed list is ["1.1.1.1"],
and the refresh reports available instead of retry. -/
theorem isIBMPINetworkRefreshUpdateFunc_dns_mismatch_reports_available :
    isIBMPINetworkRefreshUpdateFunc
        { advertise := "", arpBroadcast := "", dnsServers := ["9.9.9.9"],
          gateway := none, ipAddressRanges := [], name := none }
        { advertise := "", arpBroadcast := "", dnsServers := ["1.1.1.1"],
          gateway := "", ipAddressRanges := [], name := "", vlanID := none } =
      State_Available
    ∧ ["9.9.9.9"] ≠ ["1.1.1.1"] := by
  exact ⟨by decide, by decide⟩

/-- C4: in the PI network Create handler, a vlan configuration without a CIDR
fails validation before any vendor API call; a pub-vlan configuration with a
CIDR is rejected before any API call; and with a CIDR of mask length at most
29 the derived addresses are gateway = host 1, first usable = host 4 and last
usable = host (subnet size - 2) of the subnet, which enter the request body
when no explicit gateway or range overrides them. -/
theorem piNetworkCreate_validation_and_derivation :
    (∀ d : PINetworkConfig, d.networkType = Vlan → d.cidr = none →
        resourceIBMPINetworkCreate_phase1 d =
          .validationError "pi_cidr is required when pi_network_type is vlan")
  ∧ (∀ d : PINetworkConfig, d.networkType = PubVlan → d.cidr.isSome = true →
        resourceIBMPINetworkCreate_phase1 d =
          .validationError "pi_cidr cannot be set when pi_network_type is pub-vlan")
  ∧ (∀ cdir base n, netParseCIDR cdir = some (base, n) → n ≤ 29 →
        generateIPData cdir =
          some (ipToString (base + 1), ipToString (base + 4),
                ipToString (base + (2 ^ (32 - n) - 2))))
  ∧ (∀ (d : PINetworkConfig) (networkcidr g f l : String),
        d.networkType = Vlan → d.cidr = some networkcidr →
        d.gateway = none → d.ipAddressRange = none →
        generateIPData networkcidr = some (g, f, l) →
        resourceIBMPINetworkCreate_phase1 d =
          .callAPI { networkType := Vlan, name := d.networkName,
                     dnsServers := match d.dns with | some lst => lst | none => [],
                     cidr := networkcidr, gateway := g,
                     ipAddressRanges := [{ startingIPAddress := f, endingIPAddress := l }] }) := by
  refine ⟨?_, ?_, ?_, ?_⟩
  · intro d h1 h2
    simp [resourceIBMPINetworkCreate_phase1, h1, h2]
  · intro d h1 h2
    have hvl : (PubVlan = Vlan) = False := eq_false (by decide)
    simp [resourceIBMPINetworkCreate_phase1, h1, h2, hvl]
  · intro cdir base n hparse hn
    have h3 : 3 ≤ 32 - n := by omega
    have h32 : 32 - n ≤ 32 := by omega
    simp only [generateIPData, hparse]
    rw [cidrHost_one base (32 - n) (by omega), subnetToSize_pow (32 - n) h3 h32,
        cidrHost_four base (32 - n) (by omega)]
    norm_num
    rw [cidrHost_neg_two base (32 - n) (by omega)]
  · intro d networkcidr g f l h1 hc hg hr hgen
    have hvp : (Vlan = PubVlan) = False := eq_false (by decide)
    simp [resourceIBMPINetworkCreate_phase1, h1, hc, hg, hr, hgen, hvp]

/-- Witness for C4: the vlan configuration without a CIDR is rejected, and
the derivation formula instantiated at 192.168.1.0/24 (base 3232235776)
yields the gateway, first-usable and last-usable addresses. -/
theorem piNetworkCreate_validation_and_derivation_witness :
    resourceIBMPINetworkCreate_phase1
        { cloudInstanceID := "crn-instance", networkName := "net",
          networkType := "vlan", cidr := none, gateway := none,
          ipAddressRange := none, dns := none } =
      CreatePhase1.validationError "pi_cidr is required when pi_network_type is vlan"
    ∧ generateIPData "192.168.1.0/24" =
        some (ipToString (3232235776 + 1), ipToString (3232235776 + 4),
              ipToString (3232235776 + (2 ^ (32 - 24) - 2))) :=
  ⟨piNetworkCreate_validation_and_derivation.1 _ rfl rfl,
   piNetworkCreate_validation_and_derivation.2.2.1 "192.168.1.0/24" 3232235776 24
     (by decide) (by norm_num)⟩

/-- C2 counterexample: the CIS MTLS Delete handler, given a delete call that
failed with a 404 not-found response, returns an error instead of success, so
Delete is not idempotent for this resource type. -/
theorem resourceIBMCISMtlsDelete_errors_on_not_found :
    resourceIBMCISMtlsDelete
        (some ("Access certificate not found", some { statusCode := 404 })) ≠
      DeleteOutcome.ok := by
  decide

/-- C2 amended: Delete is idempotent for the PI network resource (a delete
error containing the not-found text, lowercased, reports success, as does a
clean delete) and for the CIS firewall-rules resource (a 404 delete response
returns success); but the CIS MTLS and private DNS GLB monitor Delete
handlers return an error on every delete failure, not-found included. -/
theorem delete_idempotency_amended :
    (∀ e, stringsContains (asciiToLower e) NotFound = true →
        retryNetworkDeleteFunc (some e) = State_NotFound)
  ∧ retryNetworkDeleteFunc none = State_NotFound
  ∧ (∀ e r, ResourceIBMCISFirewallrulesDelete (some (e, some r)) =
        if r.statusCode = 404 then DeleteOutcome.ok
        else DeleteOutcome.failed
          ("ResourceIBMCISFirewallrulesDelete DeleteFirewallRulesWithContext failed: " ++ e))
  ∧ (∀ e r, resourceIBMCISMtlsDelete (some (e, r)) ≠ DeleteOutcome.ok)
  ∧ (∀ e r, resourceIBMPrivateDNSGLBMonitorDelete (some (e, r)) ≠ DeleteOutcome.ok) := by
  refine ⟨?_, rfl, ?_, ?_, ?_⟩
  · intro e h
    simp [retryNetworkDeleteFunc, h]
  · intro e r
    rfl
  · intro e r
    simp [resourceIBMCISMtlsDelete]
  · intro e r
    simp [resourceIBMPrivateDNSGLBMonitorDelete]

/-- Witness for C2 amended: a delete error mentioning Not Found is reported
as the not-found success status by the PI network delete refresh. -/
theorem delete_idempotency_amended_witness :
    retryNetworkDeleteFunc (some "network Not Found") = State_NotFound :=
  delete_idempotency_amended.1 "network Not Found" (by decide)

/-- C3 counterexample: the GLB monitor Read decomposes an identity with a
single segment by indexing the second segment without a length check, which
is a runtime panic, not an explicit parse error. -/
theorem glbMonitorRead_panics_on_short_id :
    glbMonitorReadIdSegments "monitor-without-separator" =
      IdParseOutcome.panicked "runtime error: index out of range" := by
  decide

/-- C3 amended: the Exists operations of the GLB monitor and the permitted
network return an explicit parse error when the identity has fewer segments
than required; the GLB monitor Read, however, indexes the second segment with
no length check and panics on an identity with fewer than two segments. -/
theorem identity_parsing_amended :
    (∀ id, (goSplit id '/').length < 2 →
        ∃ msg, glbMonitorExistsIdSegments id = IdParseOutcome.parseError msg)
  ∧ (∀ id, (goSplit id '/').length < 3 →
        ∃ msg, permittedNetworkExistsIdSegments id = IdParseOutcome.parseError msg)
  ∧ (∀ id, (goSplit id '/').length < 2 →
        ∃ msg, glbMonitorReadIdSegments id = IdParseOutcome.panicked msg) := by
  refine ⟨?_, ?_, ?_⟩
  · intro id h
    refine ⟨"[ERROR] Incorrect ID " ++ id ++
      ": Id should be a combination of InstanceID/monitorID", ?_⟩
    simp only [glbMonitorExistsIdSegments]
    rw [dif_pos h]
  · intro id h
    refine ⟨"[ERROR] Incorrect ID " ++ id ++
      ": Id should be a combination of InstanceID/zoneID/permittedNetworkID", ?_⟩
    simp only [permittedNetworkExistsIdSegments]
    rw [dif_pos h]
  · intro id h
    have h2 : (goSplit id '/')[1]? = none := by
      apply List.getElem?_eq_none
      omega
    refine ⟨"runtime error: index out of range", ?_⟩
    unfold glbMonitorReadIdSegments
    cases h0 : (goSplit id '/')[0]? <;> simp [h0, h2]

/-- Witness for C3 amended: a separator-free identity makes the GLB monitor
Exists report the explicit parse error. -/
theorem identity_parsing_amended_witness :
    ∃ msg, glbMonitorExistsIdSegments "abc" = IdParseOutcome.parseError msg :=
  identity_parsing_amended.1 "abc" (by decide)

/-- C5 counterexample: the GLB monitor Read, given a get that failed with a
404 not-found response, returns an error instead of clearing the identity. -/
theorem glbMonitorRead_errors_on_404 :
    resourceIBMPrivateDNSGLBMonitorRead "instance-id"
        (.error ("monitor does not exist", some { statusCode := 404 })) ≠
      ReadOutcome.clearedId := by
  decide

/-- C5 amended: the CIS firewall-rules and CIS MTLS Reads clear the identity
and return success on a 404 response and populate the state fields from the
response on success; the GLB monitor Read instead returns an error on every
failed query, a 404 included. -/
theorem read_not_found_amended :
    (∀ crn zoneID e r, r.statusCode = 404 →
        ResourceIBMCISFirewallrulesRead crn zoneID (.error (e, some r)) =
          ReadOutcome.clearedId)
  ∧ (∀ crn zoneID e r, r.statusCode = 404 →
        resourceIBMCISMtlsRead crn zoneID (.error (e, some r)) =
          ReadOutcome.clearedId)
  ∧ (∀ instanceID e resp, ∃ msg,
        resourceIBMPrivateDNSGLBMonitorRead instanceID (.error (e, resp)) =
          ReadOutcome.failed msg)
  ∧ (∀ crn zoneID rule, ResourceIBMCISFirewallrulesRead crn zoneID (.ok rule) =
        ReadOutcome.populated
          { cisID := crn, domainID := zoneID, filterID := rule.filterID,
            action := rule.action, paused := rule.paused,
            description := rule.description })
  ∧ (∀ crn zoneID cert, resourceIBMCISMtlsRead crn zoneID (.ok cert) =
        ReadOutcome.populated
          { cisID := crn, domainID := zoneID, mtlsID := cert.id,
            certCreatedAt := cert.createdAt, certUpdatedAt := cert.updatedAt,
            certExpireOn := cert.expiresOn, certID := cert.id }) := by
  refine ⟨?_, ?_, ?_, ?_, ?_⟩
  · intro crn zoneID e r h
    simp [ResourceIBMCISFirewallrulesRead, h]
  · intro crn zoneID e r h
    simp [resourceIBMCISMtlsRead, h]
  · intro instanceID e resp
    exact ⟨_, rfl⟩
  · intro crn zoneID rule
    rfl
  · intro crn zoneID cert
    rfl

/-- Witness for C5 amended: a 404 get response makes the firewall-rules Read
clear the identity. -/
theorem read_not_found_amended_witness :
    ResourceIBMCISFirewallrulesRead "crn" "zone"
        (.error ("rule not found", some { statusCode := 404 })) =
      ReadOutcome.clearedId :=
  read_not_found_amended.1 "crn" "zone" "rule not found" { statusCode := 404 } rfl

/-- C6 counterexample: invoking the PI network Update with every HasChange
flag false still issues a vendor API call, the network get of the delegated
Read, so a no-change Update does not issue zero API calls. -/
theorem piNetworkUpdate_no_changes_still_calls_read :
    resourceIBMPINetworkUpdate_apiCalls noChangesPI "vlan" false true =
      .ok [ApiCall.networkGet]
    ∧ [ApiCall.networkGet] ≠ ([] : List ApiCall) := by
  exact ⟨rfl, by decide⟩

/-- C6 amended: with every HasChange flag false, none of the three Update
handlers invokes its update API endpoint; each still delegates to Read, which
issues a non-empty sequence of read API calls. -/
theorem update_no_changes_amended :
    (∀ networkType crnSet onPrem,
        resourceIBMPINetworkUpdate_apiCalls noChangesPI networkType crnSet onPrem =
          .ok (resourceIBMPINetworkRead_apiCalls onPrem)
        ∧ ApiCall.networkUpdate ∉ resourceIBMPINetworkRead_apiCalls onPrem
        ∧ resourceIBMPINetworkRead_apiCalls onPrem ≠ [])
  ∧ resourceIBMPrivateDNSGLBMonitorUpdate_apiCalls noChangesGlb = [ApiCall.monitorGet]
  ∧ ResourceIBMCISFirewallrulesUpdate_apiCalls noChangesFw = [ApiCall.firewallRuleGet] := by
  refine ⟨?_, rfl, rfl⟩
  intro networkType crnSet onPrem
  refine ⟨?_, ?_, ?_⟩
  · cases crnSet <;> rfl
  · cases onPrem <;> decide
  · cases onPrem <;> decide

/-- The build status is not in the target set of the availability wait. -/
lemma build_not_target : (State_Build ∈ [State_Available]) = False := eq_false (by decide)

/-- The build status is in the pending set of the availability wait. -/
lemma build_pending : (State_Build ∈ [State_Retry, State_Build]) = True := eq_true (by decide)

/-- The available status is in the target set of the availability wait. -/
lemma available_target : (State_Available ∈ [State_Available]) = True := eq_true (by decide)

/-- A refresh sequence that stays pending for the whole fuel budget makes the
availability poll time out, from any starting index. -/
lemma piPollPending_timedOut (getSeq : Nat → Except String Network) :
    ∀ fuel i,
      (∀ j, j < fuel → ∃ m : Network, getSeq (i + j) = .ok m ∧ m.vlanID = none) →
      pollConverge [State_Retry, State_Build] [State_Available]
        (isIBMPINetworkRefreshFunc getSeq) fuel i = .timedOut := by
  intro fuel
  induction fuel with
  | zero => intro i _; rfl
  | succ fuel ih =>
    intro i h
    obtain ⟨m, hm, hv⟩ := h 0 (Nat.succ_pos fuel)
    rw [Nat.add_zero] at hm
    simp [pollConverge, isIBMPINetworkRefreshFunc, hm, hv, build_not_target, build_pending]
    exact ih (i + 1) fun j hj => by
      have hs := h (j + 1) (by omega)
      rwa [show i + (j + 1) = i + 1 + j by omega] at hs

/-- A refresh sequence that is pending up to step k and reaches the target at
step k within the fuel budget makes the availability poll return the step-k
snapshot, from any starting index. -/
lemma piPollPending_reaches (getSeq : Nat → Except String Network) :
    ∀ (k fuel i : Nat) (n : Network), k < fuel →
      (∀ j, j < k → ∃ m : Network, getSeq (i + j) = .ok m ∧ m.vlanID = none) →
      getSeq (i + k) = .ok n → n.vlanID.isSome = true →
      pollConverge [State_Retry, State_Build] [State_Available]
        (isIBMPINetworkRefreshFunc getSeq) fuel i = .reached n := by
  intro k
  induction k with
  | zero =>
    intro fuel i n hf _ hn hsome
    match fuel, hf with
    | fuel + 1, _ =>
      rw [Nat.add_zero] at hn
      simp [pollConverge, isIBMPINetworkRefreshFunc, hn, hsome, available_target]
  | succ k ih =>
    intro fuel i n hf h hn hsome
    match fuel, hf with
    | fuel + 1, hf =>
      obtain ⟨m, hm, hv⟩ := h 0 (Nat.succ_pos k)
      rw [Nat.add_zero] at hm
      simp [pollConverge, isIBMPINetworkRefreshFunc, hm, hv, build_not_target, build_pending]
      exact ih fuel (i + 1) n (by omega)
        (fun j hj => by
          have hs := h (j + 1) (by omega)
          rwa [show i + (j + 1) = i + 1 + j by omega] at hs)
        (by rwa [show i + (k + 1) = i + 1 + k by omega] at hn) hsome

/-- C7: the availability wait of the PI network, for any refresh sequence:
when the sequence is pending (network still building) up to step k and the
step-k get returns a network with a VLAN ID within the timeout budget, the
wait stops and returns that snapshot; and when every refresh within the
budget stays pending, the wait fails with the timeout error. -/
theorem piNetworkAvailable_wait_poll_spec :
    (∀ (getSeq : Nat → Except String Network) (fuel k : Nat) (n : Network),
        k < fuel →
        (∀ j, j < k → ∃ m : Network, getSeq j = .ok m ∧ m.vlanID = none) →
        getSeq k = .ok n → n.vlanID.isSome = true →
        isWaitForIBMPINetworkAvailable getSeq fuel = .reached n)
  ∧ (∀ (getSeq : Nat → Except String Network) (fuel : Nat),
        (∀ j, j < fuel → ∃ m : Network, getSeq j = .ok m ∧ m.vlanID = none) →
        isWaitForIBMPINetworkAvailable getSeq fuel = .timedOut) := by
  constructor
  · intro getSeq fuel k n hk h hn hsome
    unfold isWaitForIBMPINetworkAvailable
    exact piPollPending_reaches getSeq k fuel 0 n hk
      (fun j hj => by simpa using h j hj) (by simpa using hn) hsome
  · intro getSeq fuel h
    unfold isWaitForIBMPINetworkAvailable
    exact piPollPending_timedOut getSeq fuel 0 fun j hj => by simpa using h j hj

/-- Witness for C7: two pending polls followed by a provisioned network make
the wait return that network within a budget of three polls. -/
theorem piNetworkAvailable_wait_poll_spec_witness :
    isWaitForIBMPINetworkAvailable
        (fun i => if i < 2 then .ok buildingNetwork else .ok availableNetwork) 3 =
      .reached availableNetwork :=
  piNetworkAvailable_wait_poll_spec.1 _ 3 2 availableNetwork (by omega)
    (fun j hj => ⟨buildingNetwork, by simp [hj], rfl⟩) (by norm_num) rfl

/-- C9: the deletion refresh reports the not-found target status with a nil
error on every status-query error, whatever its kind; consequently the
deletion wait treats a failing first query as confirmation that the network
is gone and succeeds immediately. -/
theorem piNetworkDelete_error_confirms_deletion :
    (∀ e, isIBMPINetworkRefreshDeleteFunc (.error e) = (none, State_NotFound, none))
  ∧ (∀ (getSeq : Nat → Except String Network) (fuel : Nat) (e : String),
        0 < fuel → getSeq 0 = .error e →
        isWaitForIBMPINetworkDeleted getSeq fuel = .reached none) := by
  constructor
  · intro e; rfl
  · intro getSeq fuel e hf h0
    match fuel, hf with
    | fuel + 1, _ =>
      simp [isWaitForIBMPINetworkDeleted, pollConverge, isIBMPINetworkRefreshDeleteFunc, h0]

/-- Witness for C9: an authorization-style failure of the very first status
query makes the deletion wait report success at once. -/
theorem piNetworkDelete_error_confirms_deletion_witness :
    isWaitForIBMPINetworkDeleted (fun _ => .error "unauthorized") 1 = .reached none :=
  piNetworkDelete_error_confirms_deletion.2 _ 1 "unauthorized" (by omega) rfl

/-- C8 counterexample: on the success path the permitted-network Create holds
the named lock across two vendor API calls, the create call and the get call
of the delegated Read, because the deferred release runs only at function
exit; the claim allows only the single API call (plus an existence check). -/
theorem permittedNetworkCreate_lock_covers_two_api_calls :
    permittedNetworkCreateEvents "instance" "zone" false false =
      [LockEvent.lock "private_dns_permitted_network_instancezone",
       LockEvent.apiCall "CreatePermittedNetwork",
       LockEvent.apiCall "GetPermittedNetwork",
       LockEvent.unlock "private_dns_permitted_network_instancezone"]
    ∧ apiCount (permittedNetworkCreateEvents "instance" "zone" false false) = 2 := by
  exact ⟨by decide, by decide⟩

/-- C8 amended: Create, Delete and Exists of the permitted-network resource
acquire the process-wide lock keyed by instance and zone identifiers before
any API call and release it on every exit path; Delete and Exists hold it for
exactly one API call, while Create holds it for up to two API calls, the
create call plus the get of the delegated Read that runs before the deferred
release. -/
theorem permitted_network_locking_amended :
    (∀ instanceID zoneID vf cf,
        wellScoped (permittedNetworkLockKey instanceID zoneID)
          (permittedNetworkCreateEvents instanceID zoneID vf cf)
        ∧ apiCount (permittedNetworkCreateEvents instanceID zoneID vf cf) ≤ 2)
  ∧ (∀ instanceID zoneID,
        wellScoped (permittedNetworkLockKey instanceID zoneID)
          (permittedNetworkDeleteEvents instanceID zoneID)
        ∧ apiCount (permittedNetworkDeleteEvents instanceID zoneID) = 1)
  ∧ (∀ instanceID zoneID,
        wellScoped (permittedNetworkLockKey instanceID zoneID)
          (permittedNetworkExistsEvents instanceID zoneID)
        ∧ apiCount (permittedNetworkExistsEvents instanceID zoneID) = 1) := by
  refine ⟨?_, ?_, ?_⟩
  · intro instanceID zoneID vf cf
    cases vf <;> cases cf <;>
      exact ⟨⟨rfl, rfl, rfl⟩, by norm_num [apiCount, permittedNetworkCreateEvents]⟩
  · intro instanceID zoneID
    exact ⟨⟨rfl, rfl, rfl⟩, rfl⟩
  · intro instanceID zoneID
    exact ⟨⟨rfl, rfl, rfl⟩, rfl⟩

/-- C10: the HPCS data-source read: a nil next URL ends the pagination; a
page whose continuation token is empty ends the aggregation with all
resources collected; a non-empty token continues the loop on the next page
with the resources accumulated; and after aggregation an empty
location-filtered list fails, more than one match fails, and exactly one
match selects that instance for the state write-back. -/
theorem hpcs_read_paging_filter_selection :
    getInstancesNext none = .ok ""
  ∧ (∀ api fuel start acc page, api start = .ok page →
        getInstancesNext page.nextURL = .ok "" →
        hpcsFetchInstances api (fuel + 1) start acc = .ok (acc ++ page.resources))
  ∧ (∀ api fuel start acc page nu, api start = .ok page →
        getInstancesNext page.nextURL = .ok nu → nu ≠ "" →
        hpcsFetchInstances api (fuel + 1) start acc =
          hpcsFetchInstances api fuel nu (acc ++ page.resources))
  ∧ (∀ api fuel name loc insts, hpcsFetchInstances api fuel "" [] = .ok insts →
        ((hpcsFilterByLocation insts loc).length = 0 →
            dataSourceIBMHPCSRead api fuel name loc =
              .failed ("[ERROR] No resource instance found with name [" ++ name ++ "]"))
        ∧ ((hpcsFilterByLocation insts loc).length > 1 →
            dataSourceIBMHPCSRead api fuel name loc =
              .failed ("[ERROR] More than one resource instance found with name matching ["
                ++ name ++ "]"))
        ∧ (∀ inst, hpcsFilterByLocation insts loc = [inst] →
            dataSourceIBMHPCSRead api fuel name loc = .selected inst)) := by
  refine ⟨rfl, ?_, ?_, ?_⟩
  · intro api fuel start acc page h1 h2
    simp [hpcsFetchInstances, h1, h2]
  · intro api fuel start acc page nu h1 h2 h3
    simp [hpcsFetchInstances, h1, h2, h3]
  · intro api fuel name loc insts hfetch
    refine ⟨?_, ?_, ?_⟩
    · intro hlen
      simp [dataSourceIBMHPCSRead, hfetch, dataSourceIBMHPCSRead_select, hlen]
    · intro hlen
      have hne : (hpcsFilterByLocation insts loc).length ≠ 0 := by omega
      simp [dataSourceIBMHPCSRead, hfetch, dataSourceIBMHPCSRead_select, hne, hlen]
    · intro inst hfil
      simp [dataSourceIBMHPCSRead, hfetch, dataSourceIBMHPCSRead_select, hfil]

/-- Witness for C10: a single page listing one instance, with no location
filter, selects that instance. -/
theorem hpcs_read_paging_filter_selection_witness :
    dataSourceIBMHPCSRead hpcsSampleAPI 1 "hpcs" none =
      HPCSReadOutcome.selected hpcsSampleInstance :=
  (hpcs_read_paging_filter_selection.2.2.2 hpcsSampleAPI 1 "hpcs" none
      [hpcsSampleInstance] rfl).2.2 hpcsSampleInstance rfl

/-- Witness for C6 amended: a no-change PI network update issues exactly the
delegated Read's calls and no update call. -/
theorem update_no_changes_amended_witness :
    resourceIBMPINetworkUpdate_apiCalls noChangesPI "vlan" true false =
      .ok (resourceIBMPINetworkRead_apiCalls false) :=
  (update_no_changes_amended.1 "vlan" true false).1

/-- Witness for C8 amended: a concrete Delete trace is well scoped for the
key built from its parent identifiers. -/
theorem permitted_network_locking_amended_witness :
    wellScoped (permittedNetworkLockKey "instance" "zone")
      (permittedNetworkDeleteEvents "instance" "zone") :=
  (permitted_network_locking_amended.2.1 "instance" "zone").1
